import Mathlib

/-!
Shallow embedding of the incident-lifecycle core of the Deploy-Merged
emergency dashboard.

The operations below are translated from `src/contexts/EmergencyContext.tsx`:
each React `setX(prev => ...)` state update becomes an explicit state-passing
function on `EmergencyState`.  `Date.now()` becomes an explicit `now : Nat`
parameter (epoch milliseconds).  Display-only incident fields that no modelled
operation reads or writes (location, media, reporter identity, assigned
department) are omitted; every field the operations or the dashboard sort
touch is kept with its source name.
-/

namespace Deploy

inductive IncidentStatus where
  | UNVERIFIED | VERIFIED | ASSIGNED | IN_PROGRESS | RESOLVED | DUPLICATE | FALSE
deriving DecidableEq, Repr

inductive IncidentSeverity where
  | LOW | MEDIUM | HIGH | CRITICAL
deriving DecidableEq, Repr

inductive IncidentType where
  | FIRE | MEDICAL | ACCIDENT | INFRASTRUCTURE | CRIME
deriving DecidableEq, Repr

/-- The string literal of a status, as interpolated into log details. -/
def statusToString : IncidentStatus → String
  | .UNVERIFIED => "UNVERIFIED"
  | .VERIFIED => "VERIFIED"
  | .ASSIGNED => "ASSIGNED"
  | .IN_PROGRESS => "IN_PROGRESS"
  | .RESOLVED => "RESOLVED"
  | .DUPLICATE => "DUPLICATE"
  | .FALSE => "FALSE"

/-- The string literal of a severity, as interpolated into log details. -/
def severityToString : IncidentSeverity → String
  | .LOW => "LOW"
  | .MEDIUM => "MEDIUM"
  | .HIGH => "HIGH"
  | .CRITICAL => "CRITICAL"

structure Incident where
  id : String
  title : String
  description : String
  type : IncidentType
  status : IncidentStatus
  severity : IncidentSeverity
  upvotes : Nat
  priority : Int
  createdAt : Nat
  updatedAt : Nat
  verifiedAt : Option Nat
  verifiedBy : Option String
  duplicateOf : Option String
deriving DecidableEq, Repr

structure ActivityLog where
  id : String
  incidentId : String
  action : String
  details : String
  userId : String
  userName : String
  timestamp : Nat
deriving DecidableEq, Repr

structure Notification where
  id : String
  title : String
  message : String
  createdAt : Nat
  read : Bool
deriving DecidableEq, Repr

structure DashboardStats where
  totalActive : Nat
  unverified : Nat
  verifiedInProgress : Nat
  resolvedToday : Nat
deriving DecidableEq, Repr

/-- The provider state: the four `useState` slices the modelled operations
touch (`incidents`, `activityLogs`, `notifications`, `dashboardStats`). -/
structure EmergencyState where
  incidents : List Incident
  activityLogs : List ActivityLog
  notifications : List Notification
  dashboardStats : DashboardStats
deriving DecidableEq, Repr

/-- `addLog` from EmergencyContext.tsx: builds a new entry with the fixed
demo user and prepends it to `activityLogs`. -/
def addLog (now : Nat) (incidentId action details : String) (s : EmergencyState) :
    EmergencyState :=
  let newLog : ActivityLog :=
    { id := "log-" ++ toString now
      incidentId := incidentId
      action := action
      details := details
      userId := "admin-001"
      userName := "John Commander"
      timestamp := now }
  { s with activityLogs := newLog :: s.activityLogs }

/-- `updateIncidentStatus`: maps over the incidents, replacing the status and
`updatedAt` of every incident whose id matches, then logs STATUS_CHANGED.
No check of any kind is performed. -/
def updateIncidentStatus (now : Nat) (id : String) (status : IncidentStatus)
    (s : EmergencyState) : EmergencyState :=
  let s1 := { s with incidents := s.incidents.map (fun inc =>
    if inc.id = id then { inc with status := status, updatedAt := now } else inc) }
  addLog now id "STATUS_CHANGED" ("Status changed to " ++ statusToString status) s1

/-- `updateIncidentSeverity`: same shape as `updateIncidentStatus` but for the
severity field; logs SEVERITY_CHANGED. -/
def updateIncidentSeverity (now : Nat) (id : String) (severity : IncidentSeverity)
    (s : EmergencyState) : EmergencyState :=
  let s1 := { s with incidents := s.incidents.map (fun inc =>
    if inc.id = id then { inc with severity := severity, updatedAt := now } else inc) }
  addLog now id "SEVERITY_CHANGED" ("Severity updated to " ++ severityToString severity) s1

/-- `verifyIncident`: unconditionally sets status VERIFIED, `verifiedAt`,
`verifiedBy` on the matching incident and logs VERIFIED. -/
def verifyIncident (now : Nat) (id : String) (s : EmergencyState) : EmergencyState :=
  let s1 := { s with incidents := s.incidents.map (fun inc =>
    if inc.id = id then
      { inc with status := .VERIFIED, verifiedAt := some now,
                 verifiedBy := some "admin-001", updatedAt := now }
    else inc) }
  addLog now id "VERIFIED" "Incident verified by admin" s1

/-- `markAsFalse`: unconditionally sets status FALSE on the matching incident
and logs MARKED_FALSE with the reason interpolated into the details. -/
def markAsFalse (now : Nat) (id reason : String) (s : EmergencyState) : EmergencyState :=
  let s1 := { s with incidents := s.incidents.map (fun inc =>
    if inc.id = id then { inc with status := .FALSE, updatedAt := now } else inc) }
  addLog now id "MARKED_FALSE" ("Marked as false report: " ++ reason) s1

/-- `markAsDuplicate`: unconditionally sets status DUPLICATE and
`duplicateOf := originalId` on the matching incident and logs MARKED_DUPLICATE. -/
def markAsDuplicate (now : Nat) (id originalId : String) (s : EmergencyState) :
    EmergencyState :=
  let s1 := { s with incidents := s.incidents.map (fun inc =>
    if inc.id = id then
      { inc with status := .DUPLICATE, duplicateOf := some originalId, updatedAt := now }
    else inc) }
  addLog now id "MARKED_DUPLICATE" ("Marked as duplicate of " ++ originalId) s1

/-- `markNotificationRead`: sets `read := true` on the matching notification;
no log entry, no error path. -/
def markNotificationRead (id : String) (s : EmergencyState) : EmergencyState :=
  { s with notifications := s.notifications.map (fun n =>
    if n.id = id then { n with read := true } else n) }

/-- `getUnreadNotificationCount`: count of notifications with `read = false`. -/
def getUnreadNotificationCount (s : EmergencyState) : Nat :=
  (s.notifications.filter (fun n => !n.read)).length

/-- Look up an incident by id (the `incidents.find(i => i.id === id)` idiom). -/
def findIncident (s : EmergencyState) (id : String) : Option Incident :=
  s.incidents.find? (fun inc => decide (inc.id = id))

/-- The comparator of `sortedIncidents` in IncidentTable.tsx, returned value
modelled as an `Int` exactly as the JS comparator returns a number:
CRITICAL first, then priority descending, then upvotes descending, then
`createdAt` ascending. -/
def incidentCmp (a b : Incident) : Int :=
  if a.severity = IncidentSeverity.CRITICAL ∧ b.severity ≠ IncidentSeverity.CRITICAL then -1
  else if b.severity = IncidentSeverity.CRITICAL ∧ a.severity ≠ IncidentSeverity.CRITICAL then 1
  else if a.priority ≠ b.priority then b.priority - a.priority
  else if a.upvotes ≠ b.upvotes then (b.upvotes : Int) - (a.upvotes : Int)
  else (a.createdAt : Int) - (b.createdAt : Int)

/-- `a` may come no later than `b` under the comparator. -/
def incidentLe (a b : Incident) : Bool := decide (incidentCmp a b ≤ 0)

/-- `[...incidents].sort(cmp)`: ECMAScript `Array.prototype.sort` is a stable
sort by the comparator and copies the spread input, and the comparator above is
a consistent total preorder, so the stable `List.mergeSort` models it exactly
(the stable sort of a list by a total preorder is unique). -/
def rank (incidents : List Incident) : List Incident :=
  incidents.mergeSort incidentLe

/-- Whether the comparator treats the incident as CRITICAL. -/
def isCritical (a : Incident) : Bool := decide (a.severity = IncidentSeverity.CRITICAL)

/-- The full sort key: two incidents the comparator ties are exactly two
incidents with equal `rankKey`. -/
def rankKey (a : Incident) : Bool × Int × Nat × Nat :=
  (isCritical a, a.priority, a.upvotes, a.createdAt)

/-- The ordering as the spec words it: every CRITICAL incident before every
non-CRITICAL one; remaining ties broken by higher priority score, then higher
upvotes, then earlier `createdAt`. -/
def specLe (a b : Incident) : Prop :=
  (isCritical a = true ∧ isCritical b = false) ∨
  (isCritical a = isCritical b ∧
    (b.priority < a.priority ∨ (a.priority = b.priority ∧
      (b.upvotes < a.upvotes ∨ (a.upvotes = b.upvotes ∧ a.createdAt ≤ b.createdAt)))))

/-- The spec's data-model invariant for duplicates: every DUPLICATE incident
references, via a non-null `duplicateOf`, a distinct existing incident that is
itself neither DUPLICATE nor FALSE. -/
def dupInvariant (s : EmergencyState) : Prop :=
  ∀ inc ∈ s.incidents, inc.status = IncidentStatus.DUPLICATE →
    ∃ orig, inc.duplicateOf = some orig ∧ orig ≠ inc.id ∧
      ∃ o ∈ s.incidents, o.id = orig ∧
        o.status ≠ IncidentStatus.DUPLICATE ∧ o.status ≠ IncidentStatus.FALSE

/-- One mutation through the context's command surface: `Step s s2` holds when
a single operation call turns state `s` into state `s2`. -/
inductive Step : EmergencyState → EmergencyState → Prop where
  | status (now : Nat) (id : String) (st : IncidentStatus) (s : EmergencyState) :
      Step s (updateIncidentStatus now id st s)
  | severity (now : Nat) (id : String) (sev : IncidentSeverity) (s : EmergencyState) :
      Step s (updateIncidentSeverity now id sev s)
  | verify (now : Nat) (id : String) (s : EmergencyState) :
      Step s (verifyIncident now id s)
  | markFalse (now : Nat) (id reason : String) (s : EmergencyState) :
      Step s (markAsFalse now id reason s)
  | markDup (now : Nat) (id originalId : String) (s : EmergencyState) :
      Step s (markAsDuplicate now id originalId s)
  | notifRead (id : String) (s : EmergencyState) :
      Step s (markNotificationRead id s)

/-- Modelled from the spec: the `unverified` dashboard aggregate as a derived
count — incidents with status UNVERIFIED, recomputed from the live incident
collection.  No such derivation exists in the source: the source components
read a separately stored `dashboardStats` record, which is what claim C6 is
about, so the derived count follows the spec's words. -/
def unverifiedCount (incidents : List Incident) : Nat :=
  (incidents.filter (fun i => decide (i.status = IncidentStatus.UNVERIFIED))).length

/-- The payload shape accepted by the report store (backend/models/Report.js):
every field optional in the incoming JSON.  Numeric coordinates are modelled
as integers; their values are irrelevant to validation. -/
structure ReportPayload where
  type : Option String
  description : Option String
  lat : Option Int
  long : Option Int
  timestamp : Option Nat
  mediaURL : Option String
  reportedBy : Option String
  severityAI : Option String
  status : Option String
  assignedTo : Option String
deriving DecidableEq, Repr

/-- A stored report document with the schema's defaults applied. -/
structure StoredReport where
  type : String
  description : String
  lat : Option Int
  long : Option Int
  timestamp : Nat
  mediaURL : Option String
  reportedBy : Option String
  severityAI : Option String
  status : String
  assignedTo : String
deriving DecidableEq, Repr

inductive StoreError where
  | ValidationError
deriving DecidableEq, Repr

/-- Modelled from the spec: `Report.create` as invoked by the POST route in
backend/routes/reportRoutes.js against the schema in backend/models/Report.js.
The schema declaration is in the source (`type` and `description` carry
`required: true`; `timestamp`, `status`, `assignedTo` carry defaults), but the
required-field validation engine is library code outside the repository, so
its behaviour follows the spec: creation fails with a `ValidationError` when a
required field is missing, and otherwise stores the document with defaults
filled in. -/
def Report.create (now : Nat) (p : ReportPayload) : Except StoreError StoredReport :=
  match p.type, p.description with
  | some t, some d =>
    .ok { type := t, description := d, lat := p.lat, long := p.long,
          timestamp := p.timestamp.getD now, mediaURL := p.mediaURL,
          reportedBy := p.reportedBy, severityAI := p.severityAI,
          status := p.status.getD "Pending", assignedTo := p.assignedTo.getD "Not Assigned" }
  | _, _ => .error .ValidationError

/-- A minimal concrete incident for the concrete-state theorems. -/
def mkIncident (id : String) (st : IncidentStatus) (sev : IncidentSeverity) : Incident :=
  { id := id, title := "t", description := "d", type := IncidentType.FIRE,
    status := st, severity := sev, upvotes := 0, priority := 0,
    createdAt := 0, updatedAt := 0, verifiedAt := none, verifiedBy := none,
    duplicateOf := none }

def emptyStats : DashboardStats :=
  { totalActive := 0, unverified := 0, verifiedInProgress := 0, resolvedToday := 0 }

/-- A state holding a single RESOLVED (terminal) incident. -/
def resolvedState : EmergencyState :=
  { incidents := [mkIncident "A" IncidentStatus.RESOLVED IncidentSeverity.HIGH],
    activityLogs := [], notifications := [], dashboardStats := emptyStats }

/-- A state holding a single UNVERIFIED incident, with dashboard stats
consistent with the incident collection (`unverified = 1`). -/
def unverifiedState : EmergencyState :=
  { incidents := [mkIncident "A" IncidentStatus.UNVERIFIED IncidentSeverity.MEDIUM],
    activityLogs := [], notifications := [],
    dashboardStats :=
      { totalActive := 1, unverified := 1, verifiedInProgress := 0, resolvedToday := 0 } }

/-- A state holding a single unread notification. -/
def notifState : EmergencyState :=
  { incidents := [], activityLogs := [],
    notifications := [{ id := "n1", title := "t", message := "m", createdAt := 0, read := false }],
    dashboardStats := emptyStats }

theorem incidentLe_iff_specLe (a b : Incident) : incidentLe a b = true ↔ specLe a b := by
  unfold incidentLe incidentCmp specLe isCritical
  by_cases hac : a.severity = IncidentSeverity.CRITICAL <;>
    by_cases hbc : b.severity = IncidentSeverity.CRITICAL <;>
    by_cases hpr : a.priority = b.priority <;>
    by_cases hup : a.upvotes = b.upvotes <;>
    simp [hac, hbc, hpr, hup] <;> omega

theorem specLe_trans {a b c : Incident} (h1 : specLe a b) (h2 : specLe b c) :
    specLe a c := by
  unfold specLe at h1 h2 ⊢
  rcases h1 with ⟨ha1, hb1⟩ | ⟨he1, h1⟩ <;> rcases h2 with ⟨ha2, hb2⟩ | ⟨he2, h2⟩
  · rw [ha2] at hb1; cases hb1
  · left; exact ⟨ha1, he2 ▸ hb1⟩
  · left; exact ⟨he1 ▸ ha2, hb2⟩
  · right; exact ⟨he1.trans he2, by omega⟩

theorem incidentLe_trans (a b c : Incident) (h1 : incidentLe a b) (h2 : incidentLe b c) :
    incidentLe a c := by
  rw [incidentLe_iff_specLe] at h1 h2 ⊢
  exact specLe_trans h1 h2

theorem incidentLe_total (a b : Incident) : incidentLe a b || incidentLe b a := by
  simp only [Bool.or_eq_true, incidentLe_iff_specLe]
  unfold specLe
  by_cases hac : isCritical a = true <;> by_cases hbc : isCritical b = true <;>
    simp [hac, hbc] <;> omega

theorem incidentLe_of_rankKey_eq {a b : Incident} (h : rankKey a = rankKey b) :
    incidentLe a b = true := by
  unfold rankKey at h
  rw [incidentLe_iff_specLe]
  right
  refine ⟨?_, ?_⟩
  · exact congrArg Prod.fst h
  · have h2 := congrArg (fun p => p.2.1) h
    have h3 := congrArg (fun p => p.2.2.1) h
    have h4 := congrArg (fun p => p.2.2.2) h
    simp only at h2 h3 h4
    omega

/-- Mapping an id-guarded update over the list rewrites exactly the incident
`find?` locates, provided the update preserves the id. -/
theorem find_update (l : List Incident) (id : String) (f : Incident → Incident)
    (hf : ∀ inc, (f inc).id = inc.id) :
    (l.map (fun inc => if inc.id = id then f inc else inc)).find?
        (fun inc => decide (inc.id = id)) =
      (l.find? (fun inc => decide (inc.id = id))).map f := by
  induction l with
  | nil => rfl
  | cons a t ih =>
    by_cases h : a.id = id
    · simp [List.find?_cons, h, hf]
    · simp [List.find?_cons, h, ih]

/-- An id-guarded update is the identity when no incident carries the id. -/
theorem map_id_of_no_match (l : List Incident) (id : String) (f : Incident → Incident)
    (h : ∀ inc ∈ l, inc.id ≠ id) :
    l.map (fun inc => if inc.id = id then f inc else inc) = l := by
  induction l with
  | nil => rfl
  | cons a t ih =>
    have ha : a.id ≠ id := h a (List.mem_cons_self a t)
    simp only [List.map_cons, if_neg ha, List.cons.injEq, true_and]
    exact ih (fun inc hm => h inc (List.mem_cons_of_mem a hm))

theorem findIncident_updateIncidentStatus (now : Nat) (id : String) (st : IncidentStatus)
    (s : EmergencyState) :
    findIncident (updateIncidentStatus now id st s) id =
      (findIncident s id).map (fun inc => { inc with status := st, updatedAt := now }) :=
  find_update s.incidents id _ (fun _ => rfl)

theorem findIncident_updateIncidentSeverity (now : Nat) (id : String)
    (sev : IncidentSeverity) (s : EmergencyState) :
    findIncident (updateIncidentSeverity now id sev s) id =
      (findIncident s id).map (fun inc => { inc with severity := sev, updatedAt := now }) :=
  find_update s.incidents id _ (fun _ => rfl)

theorem findIncident_verifyIncident (now : Nat) (id : String) (s : EmergencyState) :
    findIncident (verifyIncident now id s) id =
      (findIncident s id).map (fun inc =>
        { inc with status := .VERIFIED, verifiedAt := some now,
                   verifiedBy := some "admin-001", updatedAt := now }) :=
  find_update s.incidents id _ (fun _ => rfl)

theorem findIncident_markAsFalse (now : Nat) (id reason : String) (s : EmergencyState) :
    findIncident (markAsFalse now id reason s) id =
      (findIncident s id).map (fun inc => { inc with status := .FALSE, updatedAt := now }) :=
  find_update s.incidents id _ (fun _ => rfl)

theorem findIncident_markAsDuplicate (now : Nat) (id originalId : String)
    (s : EmergencyState) :
    findIncident (markAsDuplicate now id originalId s) id =
      (findIncident s id).map (fun inc =>
        { inc with status := .DUPLICATE, duplicateOf := some originalId, updatedAt := now }) :=
  find_update s.incidents id _ (fun _ => rfl)

/-- Claim C1, counterexample: on a state holding one RESOLVED incident,
`updateIncidentStatus` and `updateIncidentSeverity` do not fail — they change
the status and the severity, refuting the claim that the calls fail with
`InvalidTransitionError` and leave the incident unchanged. -/
theorem updateOps_terminal_counterexample :
    resolvedState.incidents.map Incident.status = [IncidentStatus.RESOLVED] ∧
    (updateIncidentStatus 5 "A" IncidentStatus.IN_PROGRESS resolvedState).incidents.map
      Incident.status = [IncidentStatus.IN_PROGRESS] ∧
    resolvedState.incidents.map Incident.severity = [IncidentSeverity.HIGH] ∧
    (updateIncidentSeverity 5 "A" IncidentSeverity.LOW resolvedState).incidents.map
      Incident.severity = [IncidentSeverity.LOW] := by decide

/-- Claim C1, amended: `updateIncidentStatus` and `updateIncidentSeverity`
perform no terminal-state check and have no error path: even when the matched
incident is RESOLVED, FALSE or DUPLICATE they overwrite its status
(respectively severity), stamp `updatedAt`, and append one activity-log
entry. -/
theorem updateOps_ignore_terminal (now : Nat) (s : EmergencyState) (id : String)
    (st : IncidentStatus) (sev : IncidentSeverity) (inc : Incident)
    (hfind : findIncident s id = some inc)
    (_hterm : inc.status = IncidentStatus.RESOLVED ∨ inc.status = IncidentStatus.FALSE ∨
              inc.status = IncidentStatus.DUPLICATE) :
    findIncident (updateIncidentStatus now id st s) id =
      some { inc with status := st, updatedAt := now } ∧
    findIncident (updateIncidentSeverity now id sev s) id =
      some { inc with severity := sev, updatedAt := now } ∧
    (updateIncidentStatus now id st s).activityLogs.length = s.activityLogs.length + 1 ∧
    (updateIncidentSeverity now id sev s).activityLogs.length = s.activityLogs.length + 1 := by
  refine ⟨?_, ?_, rfl, rfl⟩
  · rw [findIncident_updateIncidentStatus, hfind]; rfl
  · rw [findIncident_updateIncidentSeverity, hfind]; rfl

/-- Claim C1, witness at a concrete terminal incident. -/
theorem updateOps_ignore_terminal_witness :
    findIncident (updateIncidentStatus 5 "A" IncidentStatus.IN_PROGRESS resolvedState) "A" =
      some { mkIncident "A" IncidentStatus.RESOLVED IncidentSeverity.HIGH with
             status := IncidentStatus.IN_PROGRESS, updatedAt := 5 } :=
  (updateOps_ignore_terminal 5 resolvedState "A" IncidentStatus.IN_PROGRESS
    IncidentSeverity.LOW (mkIncident "A" IncidentStatus.RESOLVED IncidentSeverity.HIGH)
    (by decide) (Or.inl rfl)).1

/-- Claim C2, counterexample: `verifyIncident` called on a RESOLVED incident
does not fail with `InvalidTransitionError` — it succeeds and rewrites the
status to VERIFIED. -/
theorem verify_nonUnverified_counterexample :
    resolvedState.incidents.map Incident.status = [IncidentStatus.RESOLVED] ∧
    (verifyIncident 5 "A" resolvedState).incidents.map Incident.status =
      [IncidentStatus.VERIFIED] := by decide

/-- Claim C2, amended: `verifyIncident` checks neither existence nor current
status: whatever status the matched incident has, it sets status VERIFIED,
`verifiedAt := now`, `verifiedBy := "admin-001"`, and appends exactly one
VERIFIED activity-log entry (the entry is appended even for unknown ids, see
claim C10). -/
theorem verifyIncident_unconditional (now : Nat) (s : EmergencyState) (id : String)
    (inc : Incident) (hfind : findIncident s id = some inc) :
    findIncident (verifyIncident now id s) id =
      some { inc with
               status := IncidentStatus.VERIFIED, verifiedAt := some now,
               verifiedBy := some "admin-001", updatedAt := now } ∧
    ∃ e, (verifyIncident now id s).activityLogs = e :: s.activityLogs ∧
      e.incidentId = id ∧ e.action = "VERIFIED" := by
  refine ⟨?_, ⟨_, rfl, rfl, rfl⟩⟩
  rw [findIncident_verifyIncident, hfind]; rfl

/-- Claim C2, witness: verifying a RESOLVED incident still succeeds. -/
theorem verifyIncident_unconditional_witness :
    findIncident (verifyIncident 9 "A" resolvedState) "A" =
      some { mkIncident "A" IncidentStatus.RESOLVED IncidentSeverity.HIGH with
             status := IncidentStatus.VERIFIED, verifiedAt := some 9,
             verifiedBy := some "admin-001", updatedAt := 9 } :=
  (verifyIncident_unconditional 9 resolvedState "A"
    (mkIncident "A" IncidentStatus.RESOLVED IncidentSeverity.HIGH) (by decide)).1

/-- Claim C3, counterexample: `markAsFalse` with an empty reason does not fail
with `ValidationError`: it flips the UNVERIFIED incident to FALSE and appends
a log entry. -/
theorem markAsFalse_empty_reason_counterexample :
    unverifiedState.incidents.map Incident.status = [IncidentStatus.UNVERIFIED] ∧
    (markAsFalse 5 "A" "" unverifiedState).incidents.map Incident.status =
      [IncidentStatus.FALSE] ∧
    (markAsFalse 5 "A" "" unverifiedState).activityLogs.length =
      unverifiedState.activityLogs.length + 1 := by decide

/-- Claim C3, amended: `markAsFalse` performs no validation of the reason:
for every reason, empty or whitespace included, it sets the matched incident's
status to FALSE and appends one MARKED_FALSE log entry with the reason
embedded in its details. -/
theorem markAsFalse_no_reason_validation (now : Nat) (s : EmergencyState)
    (id reason : String) (inc : Incident) (hfind : findIncident s id = some inc) :
    findIncident (markAsFalse now id reason s) id =
      some { inc with status := IncidentStatus.FALSE, updatedAt := now } ∧
    ∃ e, (markAsFalse now id reason s).activityLogs = e :: s.activityLogs ∧
      e.action = "MARKED_FALSE" ∧ e.details = "Marked as false report: " ++ reason := by
  refine ⟨?_, ⟨_, rfl, rfl, rfl⟩⟩
  rw [findIncident_markAsFalse, hfind]; rfl

/-- Claim C3, witness at the empty reason. -/
theorem markAsFalse_no_reason_validation_witness :
    findIncident (markAsFalse 5 "A" "" unverifiedState) "A" =
      some { mkIncident "A" IncidentStatus.UNVERIFIED IncidentSeverity.MEDIUM with
             status := IncidentStatus.FALSE, updatedAt := 5 } :=
  (markAsFalse_no_reason_validation 5 unverifiedState "A" ""
    (mkIncident "A" IncidentStatus.UNVERIFIED IncidentSeverity.MEDIUM) (by decide)).1

/-- Claim C4, counterexample: `markAsDuplicate` with `originalId = id` does
not fail with `ValidationError`: it marks the incident as a duplicate of
itself. -/
theorem markAsDuplicate_self_counterexample :
    (markAsDuplicate 5 "A" "A" unverifiedState).incidents.map Incident.status =
      [IncidentStatus.DUPLICATE] ∧
    (markAsDuplicate 5 "A" "A" unverifiedState).incidents.map Incident.duplicateOf =
      [some "A"] := by decide

/-- Claim C4, amended: `markAsDuplicate` performs none of the three checks:
for every `originalId` — equal to `id`, unknown, or referencing a FALSE or
DUPLICATE incident — it sets the matched incident's status to DUPLICATE and
its `duplicateOf` to `originalId`, and appends one MARKED_DUPLICATE log
entry. -/
theorem markAsDuplicate_unconditional (now : Nat) (s : EmergencyState)
    (id originalId : String) (inc : Incident) (hfind : findIncident s id = some inc) :
    findIncident (markAsDuplicate now id originalId s) id =
      some { inc with
               status := IncidentStatus.DUPLICATE,
               duplicateOf := some originalId, updatedAt := now } ∧
    ∃ e, (markAsDuplicate now id originalId s).activityLogs = e :: s.activityLogs ∧
      e.action = "MARKED_DUPLICATE" := by
  refine ⟨?_, ⟨_, rfl, rfl⟩⟩
  rw [findIncident_markAsDuplicate, hfind]; rfl

/-- Claim C4, witness at the self-reference case. -/
theorem markAsDuplicate_unconditional_witness :
    findIncident (markAsDuplicate 5 "A" "A" unverifiedState) "A" =
      some { mkIncident "A" IncidentStatus.UNVERIFIED IncidentSeverity.MEDIUM with
             status := IncidentStatus.DUPLICATE, duplicateOf := some "A",
             updatedAt := 5 } :=
  (markAsDuplicate_unconditional 5 unverifiedState "A" "A"
    (mkIncident "A" IncidentStatus.UNVERIFIED IncidentSeverity.MEDIUM) (by decide)).1

/-- Claim C5, counterexample: the duplicate invariant is not maintained by
the operations.  From a state satisfying it (one UNVERIFIED incident), a
single `markAsDuplicate "A" "A"` step reaches a state with a DUPLICATE
incident whose `duplicateOf` points to itself. -/
theorem dupInvariant_counterexample :
    dupInvariant unverifiedState ∧
    Step unverifiedState (markAsDuplicate 7 "A" "A" unverifiedState) ∧
    ¬ dupInvariant (markAsDuplicate 7 "A" "A" unverifiedState) := by
  refine ⟨?_, Step.markDup 7 "A" "A" unverifiedState, ?_⟩
  · intro inc hm hdup
    simp only [unverifiedState, List.mem_singleton] at hm
    subst hm
    simp [mkIncident] at hdup
  · intro h
    obtain ⟨orig, ho, hne, -⟩ :=
      h { mkIncident "A" IncidentStatus.UNVERIFIED IncidentSeverity.MEDIUM with
            status := IncidentStatus.DUPLICATE, duplicateOf := some "A", updatedAt := 7 }
        (by decide) rfl
    have ho2 : some "A" = some orig := ho
    exact hne (Option.some_inj.mp ho2).symm

/-- Claim C5, amended: after `markAsDuplicate(id, originalId)` the matched
incident carries status DUPLICATE with a non-null `duplicateOf = originalId`,
but no check makes that reference distinct, existing, or non-discarded, so
only this weaker form of the invariant is established. -/
theorem markAsDuplicate_sets_nonnull_duplicateOf (now : Nat) (s : EmergencyState)
    (id originalId : String) :
    ∀ inc ∈ (markAsDuplicate now id originalId s).incidents, inc.id = id →
      inc.status = IncidentStatus.DUPLICATE ∧ inc.duplicateOf = some originalId := by
  intro inc hm hid
  simp only [markAsDuplicate, addLog, List.mem_map] at hm
  obtain ⟨orig, hmem, heq⟩ := hm
  by_cases h : orig.id = id
  · rw [if_pos h] at heq; subst heq; exact ⟨rfl, rfl⟩
  · rw [if_neg h] at heq; subst heq; exact absurd hid h

/-- Claim C5, witness at a concrete duplicate marking. -/
theorem markAsDuplicate_sets_nonnull_duplicateOf_witness :
    ({ mkIncident "A" IncidentStatus.UNVERIFIED IncidentSeverity.MEDIUM with
         status := IncidentStatus.DUPLICATE, duplicateOf := some "B",
         updatedAt := 3 } : Incident).status = IncidentStatus.DUPLICATE ∧
    ({ mkIncident "A" IncidentStatus.UNVERIFIED IncidentSeverity.MEDIUM with
         status := IncidentStatus.DUPLICATE, duplicateOf := some "B",
         updatedAt := 3 } : Incident).duplicateOf = some "B" :=
  markAsDuplicate_sets_nonnull_duplicateOf 3 unverifiedState "A" "B"
    { mkIncident "A" IncidentStatus.UNVERIFIED IncidentSeverity.MEDIUM with
        status := IncidentStatus.DUPLICATE, duplicateOf := some "B", updatedAt := 3 }
    (by decide) rfl

/-- Claim C6, counterexample: the dashboard aggregates are a separately
stored record.  In a state where `dashboardStats.unverified` agrees with the
count derived from the incidents, one `verifyIncident` call changes the
derived count but leaves the stored aggregate behind, so the two differ. -/
theorem dashboardStats_drift_counterexample :
    unverifiedState.dashboardStats.unverified =
      unverifiedCount unverifiedState.incidents ∧
    (verifyIncident 5 "A" unverifiedState).dashboardStats.unverified ≠
      unverifiedCount (verifyIncident 5 "A" unverifiedState).incidents := by decide

/-- Claim C6, amended: `dashboardStats` is held in its own state slice that no
operation recomputes or updates: every operation of the command surface leaves
it unchanged, so it drifts from the incident records rather than being derived
from them. -/
theorem dashboardStats_constant_under_ops (now : Nat) (s : EmergencyState)
    (id oid reason : String) (st : IncidentStatus) (sev : IncidentSeverity) :
    (updateIncidentStatus now id st s).dashboardStats = s.dashboardStats ∧
    (updateIncidentSeverity now id sev s).dashboardStats = s.dashboardStats ∧
    (verifyIncident now id s).dashboardStats = s.dashboardStats ∧
    (markAsFalse now id reason s).dashboardStats = s.dashboardStats ∧
    (markAsDuplicate now id oid s).dashboardStats = s.dashboardStats ∧
    (markNotificationRead id s).dashboardStats = s.dashboardStats :=
  ⟨rfl, rfl, rfl, rfl, rfl, rfl⟩

/-- Claim C7: `rank` is a stable sort of its input — the output is a
permutation of the input (the input itself, being a pure value, is untouched),
consecutive elements obey the spec ordering (CRITICAL before non-CRITICAL,
then higher priority, then higher upvotes, then earlier `createdAt`), and
elements with equal sort keys keep their relative input order: filtering
either list to any one key value yields identical lists. -/
theorem rank_stable_priority_order (xs : List Incident) :
    (rank xs).Perm xs ∧
    (rank xs).Pairwise specLe ∧
    ∀ k : Bool × Int × Nat × Nat,
      (rank xs).filter (fun i => decide (rankKey i = k)) =
        xs.filter (fun i => decide (rankKey i = k)) := by
  refine ⟨List.mergeSort_perm xs incidentLe, ?_, ?_⟩
  · exact (List.sorted_mergeSort incidentLe_trans incidentLe_total xs).imp
      (fun hab => (incidentLe_iff_specLe _ _).mp hab)
  · intro k
    have hpair : (xs.filter (fun i => decide (rankKey i = k))).Pairwise
        (fun a b => incidentLe a b = true) := by
      apply List.pairwise_of_forall_mem_list
      intro a ha b hb
      have hka : rankKey a = k := of_decide_eq_true (List.mem_filter.mp ha).2
      have hkb : rankKey b = k := of_decide_eq_true (List.mem_filter.mp hb).2
      exact incidentLe_of_rankKey_eq (hka.trans hkb.symm)
    have hsub : List.Sublist (xs.filter (fun i => decide (rankKey i = k))) (rank xs) :=
      List.sublist_mergeSort incidentLe_trans incidentLe_total hpair
        (List.filter_sublist xs)
    have hself : (xs.filter (fun i => decide (rankKey i = k))).filter
        (fun i => decide (rankKey i = k)) = xs.filter (fun i => decide (rankKey i = k)) :=
      List.filter_eq_self.mpr (fun a ha => (List.mem_filter.mp ha).2)
    have hsub2 : List.Sublist (xs.filter (fun i => decide (rankKey i = k)))
        ((rank xs).filter (fun i => decide (rankKey i = k))) := by
      rw [← hself]; exact hsub.filter _
    have hperm : ((rank xs).filter (fun i => decide (rankKey i = k))).Perm
        (xs.filter (fun i => decide (rankKey i = k))) :=
      (List.mergeSort_perm xs incidentLe).filter _
    exact (hsub2.eq_of_length hperm.length_eq.symm).symm

/-- Pointwise effect of `markNotificationRead` on the notification list:
ids are kept, a read flag never goes back from `true` to `false`, and a flag
becomes `true` only if it already was or the notification is the target. -/
theorem markNotificationRead_pointwise (l : List Notification) (id : String) :
    List.Forall₂ (fun o n => n.id = o.id ∧ (o.read = true → n.read = true) ∧
        (n.read = true → o.read = true ∨ o.id = id))
      l (l.map (fun n => if n.id = id then { n with read := true } else n)) := by
  induction l with
  | nil => exact List.Forall₂.nil
  | cons a t ih =>
    simp only [List.map_cons]
    refine List.Forall₂.cons ?_ ih
    by_cases h : a.id = id
    · rw [if_pos h]; exact ⟨rfl, fun _ => rfl, fun _ => Or.inr h⟩
    · rw [if_neg h]; exact ⟨rfl, fun hr => hr, fun hr => Or.inl hr⟩

/-- Claim C8: `markNotificationRead` is idempotent, is a silent no-op when no
notification carries the id, and only ever flips a `read` flag from false to
true, never back. -/
theorem markNotificationRead_spec (s : EmergencyState) (id : String) :
    markNotificationRead id (markNotificationRead id s) = markNotificationRead id s ∧
    ((∀ n ∈ s.notifications, n.id ≠ id) → markNotificationRead id s = s) ∧
    List.Forall₂ (fun o n => n.id = o.id ∧ (o.read = true → n.read = true) ∧
        (n.read = true → o.read = true ∨ o.id = id))
      s.notifications (markNotificationRead id s).notifications := by
  refine ⟨?_, ?_, markNotificationRead_pointwise s.notifications id⟩
  · unfold markNotificationRead
    simp only [List.map_map]
    congr 1
    apply List.map_congr_left
    intro n _
    by_cases h : n.id = id
    · simp [Function.comp, h]
    · simp [Function.comp, h]
  · intro h
    show { s with notifications := _ } = s
    have hmap : s.notifications.map
        (fun n => if n.id = id then { n with read := true } else n) = s.notifications := by
      conv_rhs => rw [← List.map_id s.notifications]
      apply List.map_congr_left
      intro n hn
      rw [if_neg (h n hn)]
      rfl
    rw [hmap]

/-- Claim C8, witness: on a concrete state whose only notification has a
different id, marking is idempotent and a no-op. -/
theorem markNotificationRead_spec_witness :
    markNotificationRead "zzz" (markNotificationRead "zzz" notifState) =
      markNotificationRead "zzz" notifState ∧
    markNotificationRead "zzz" notifState = notifState :=
  ⟨(markNotificationRead_spec notifState "zzz").1,
   (markNotificationRead_spec notifState "zzz").2.1 (by decide)⟩

/-- Claim C9: report creation fails with a `ValidationError` exactly when a
required field (`type` or `description`) is missing, and otherwise succeeds
and returns the stored document. -/
theorem create_requires_type_description (now : Nat) (p : ReportPayload) :
    ((p.type.isSome ∧ p.description.isSome) → ∃ r, Report.create now p = Except.ok r) ∧
    ((p.type = none ∨ p.description = none) →
      Report.create now p = Except.error StoreError.ValidationError) := by
  constructor
  · rintro ⟨ht, hd⟩
    obtain ⟨t, ht⟩ := Option.isSome_iff_exists.mp ht
    obtain ⟨d, hd⟩ := Option.isSome_iff_exists.mp hd
    exact ⟨_, by unfold Report.create; rw [ht, hd]⟩
  · intro h
    cases hpt : p.type <;> cases hpd : p.description <;>
      simp_all [Report.create]

def goodPayload : ReportPayload :=
  { type := some "FIRE", description := some "d", lat := none, long := none,
    timestamp := none, mediaURL := none, reportedBy := none, severityAI := none,
    status := none, assignedTo := none }

def badPayload : ReportPayload := { goodPayload with description := none }

/-- Claim C9, witness at a complete and at an incomplete payload. -/
theorem create_requires_type_description_witness :
    (Report.create 0 goodPayload).isOk = true ∧
    Report.create 0 badPayload = Except.error StoreError.ValidationError := by
  obtain ⟨r, hr⟩ := (create_requires_type_description 0 goodPayload).1 (by decide)
  exact ⟨by rw [hr]; rfl,
         (create_requires_type_description 0 badPayload).2 (Or.inr rfl)⟩

/-- Claim C10: when no incident carries the id, `updateIncidentStatus`,
`verifyIncident`, `markAsFalse` and `markAsDuplicate` leave the incident
collection unchanged and report no error (the operations are total and have
no error channel), yet each still prepends exactly one activity-log entry
recording the action against that id. -/
theorem unknownId_silent_log (now : Nat) (s : EmergencyState) (id oid reason : String)
    (st : IncidentStatus)
    (h : ∀ inc ∈ s.incidents, inc.id ≠ id) :
    ((updateIncidentStatus now id st s).incidents = s.incidents ∧
      ∃ e, (updateIncidentStatus now id st s).activityLogs = e :: s.activityLogs ∧
        e.incidentId = id ∧ e.action = "STATUS_CHANGED") ∧
    ((verifyIncident now id s).incidents = s.incidents ∧
      ∃ e, (verifyIncident now id s).activityLogs = e :: s.activityLogs ∧
        e.incidentId = id ∧ e.action = "VERIFIED") ∧
    ((markAsFalse now id reason s).incidents = s.incidents ∧
      ∃ e, (markAsFalse now id reason s).activityLogs = e :: s.activityLogs ∧
        e.incidentId = id ∧ e.action = "MARKED_FALSE") ∧
    ((markAsDuplicate now id oid s).incidents = s.incidents ∧
      ∃ e, (markAsDuplicate now id oid s).activityLogs = e :: s.activityLogs ∧
        e.incidentId = id ∧ e.action = "MARKED_DUPLICATE") :=
  ⟨⟨map_id_of_no_match s.incidents id _ h, ⟨_, rfl, rfl, rfl⟩⟩,
   ⟨map_id_of_no_match s.incidents id _ h, ⟨_, rfl, rfl, rfl⟩⟩,
   ⟨map_id_of_no_match s.incidents id _ h, ⟨_, rfl, rfl, rfl⟩⟩,
   ⟨map_id_of_no_match s.incidents id _ h, ⟨_, rfl, rfl, rfl⟩⟩⟩

/-- Claim C10, witness: an id carried by no incident. -/
theorem unknownId_silent_log_witness :
    (updateIncidentStatus 7 "Z" IncidentStatus.VERIFIED unverifiedState).incidents =
      unverifiedState.incidents ∧
    (verifyIncident 7 "Z" unverifiedState).incidents = unverifiedState.incidents ∧
    (markAsFalse 7 "Z" "r" unverifiedState).incidents = unverifiedState.incidents ∧
    (markAsDuplicate 7 "Z" "O" unverifiedState).incidents = unverifiedState.incidents :=
  ⟨(unknownId_silent_log 7 unverifiedState "Z" "O" "r" IncidentStatus.VERIFIED
      (by decide)).1.1,
   (unknownId_silent_log 7 unverifiedState "Z" "O" "r" IncidentStatus.VERIFIED
      (by decide)).2.1.1,
   (unknownId_silent_log 7 unverifiedState "Z" "O" "r" IncidentStatus.VERIFIED
      (by decide)).2.2.1.1,
   (unknownId_silent_log 7 unverifiedState "Z" "O" "r" IncidentStatus.VERIFIED
      (by decide)).2.2.2.1⟩

end Deploy
